import Mathlib

/-
Verification of the audio-summary bot (src/main.py) against its
natural-language specification.

The program is shallowly embedded: external adapters (ffmpeg, Whisper,
GPT, SMTP, the Telegram transport and the Redis staging store) are
modelled by an environment `Env` recording the outcome each adapter
would produce, and every side effect (chat sends, adapter invocations,
mail submissions, console logs) is reified into an `Event` trace.
The Redis staging store is an association list of
(key, value, optional absolute expiry time); a plain SET (the only
write the source performs) stores `none` for the expiry, mirroring
`redis_client.set(key, value)` without an `ex` argument.
The local file system is the set (list) of existing paths; `os.remove`
fails with `fileNotFound` on a missing path, as in Python.
-/

namespace Bot

/-- Exceptions that the embedded code can raise. -/
inductive PyError
  | fileNotFound (path : String)
  | transportError
  | redisError
  | indexError
deriving DecidableEq

/-- Observable side effects of the program, in order of occurrence. -/
inductive Event
  | sendMessage (chatId : Nat) (text : String)
  | sendMarkup (chatId : Nat) (text : String) (buttons : List String)
  | transcribeCall (path : String)
  | generateCall (text : String)
  | mailAttempt (recipient subject body : String)
  | log (text : String)
deriving DecidableEq

/-- Adapter outcomes and configuration for one run.
Fields in order: hasAudioStream, transcodeOk, transcription, report,
sendOk (Telegram sends succeed), redisOk, mailOk (SMTP send succeeds),
reportId (the uuid4 value drawn), today (strftime of the current date),
toEmail (the TO_EMAIL recipient list). -/
structure Env where
  hasAudioStream : Bool
  transcodeOk : Bool
  transcription : Option String
  report : Option String
  sendOk : Bool
  redisOk : Bool
  mailOk : Bool
  reportId : String
  today : String
  toEmail : List String

/-- One Redis key with its value and optional absolute expiry time. -/
abbrev Entry : Type := String × String × Option Nat

/-- The staging store: Redis contents as an association list. -/
abbrev Store : Type := List Entry

/-- Redis GET at time `now`: an entry whose expiry has passed is absent. -/
def redisGet (st : Store) (now : Nat) (k : String) : Option String :=
  match st.find? (fun e => e.1 == k) with
  | none => none
  | some (_, v, none) => some v
  | some (_, v, some exp) => if now < exp then some v else none

/-- Redis SET without `ex`: replaces the key, stores no expiry. -/
def redisSet (st : Store) (k v : String) : Store :=
  (k, v, none) :: st.filter (fun e => !(e.1 == k))

/-- Redis DEL: removes the key; deleting an absent key is a no-op. -/
def redisDelete (st : Store) (k : String) : Store :=
  st.filter (fun e => !(e.1 == k))

/-- Python truthiness of an optional string: `None` and `""` are falsy. -/
def otruthy : Option String → Option String
  | none => none
  | some s => if s.data.isEmpty then none else some s

/-- os.path.basename for posix paths. -/
def basename (p : String) : String :=
  String.mk ((p.data.reverse.takeWhile (fun c => !(c == '/'))).reverse)

/-- The root of os.path.splitext: everything before the last dot.
Adequate for the simple `downloads/<name>.<ext>` paths the program builds
(no dots in directory components). -/
def splitextStem (p : String) : String :=
  if p.data.contains '.' then
    String.mk (((p.data.reverse.dropWhile (fun c => !(c == '.'))).drop 1).reverse)
  else p

/-- str.endswith(".mp3"). -/
def endsWithMp3 (p : String) : Bool :=
  p.data.reverse.take 4 == ['3', 'p', 'm', '.']

/-- os.remove: deletes the path, raising FileNotFoundError if absent. -/
def osRemove (fs : List String) (p : String) : Except PyError (List String) :=
  if fs.contains p then .ok (fs.erase p) else .error (.fileNotFound p)

/-- bot.send_message: raises on transport failure. -/
def bot_send (env : Env) (chatId : Nat) (text : String) : Except PyError Event :=
  if env.sendOk then .ok (.sendMessage chatId text) else .error .transportError

/-- bot.send_message with an inline keyboard; `buttons` are callback datas. -/
def bot_sendMarkup (env : Env) (chatId : Nat) (text : String)
    (buttons : List String) : Except PyError Event :=
  if env.sendOk then .ok (.sendMarkup chatId text buttons) else .error .transportError

/-- main.py `compress_audio` (lines 71-100): fixes the extension to .mp3,
probes for an audio stream, transcodes on success; every exception is
caught and turned into `None`. Returns the compressed path, the new file
system, and the log trace. A missing input file makes ffmpeg.probe raise,
which is caught (`Error compressing audio`). -/
def compress_audio (env : Env) (input_path output_path : String)
    (fs : List String) : Option String × List String × List Event :=
  let out := if endsWithMp3 output_path then output_path
             else splitextStem output_path ++ ".mp3"
  if fs.contains input_path then
    if env.hasAudioStream then
      if env.transcodeOk then (some out, out :: fs, [])
      else (none, fs, [.log "Error compressing audio"])
    else (none, fs, [.log ("No valid audio stream found in " ++ input_path)])
  else (none, fs, [.log "Error compressing audio"])

/-- main.py `transcribe_audio` (lines 103-114): opens the file (a missing
file raises, caught into `None`), otherwise invokes the Whisper API. -/
def transcribe_audio (env : Env) (file_path : String) (fs : List String) :
    Option String × List Event :=
  if fs.contains file_path then (env.transcription, [.transcribeCall file_path])
  else (none, [.log "Error transcribing audio"])

/-- main.py `generate_report` (lines 117-205): invokes the GPT API on the
transcription; exceptions are caught into `None`. -/
def generate_report (env : Env) (transcription : String) :
    Option String × List Event :=
  (env.report, [.generateCall transcription])

/-- The chunk decomposition performed by the loop in `send_long_message`
(lines 208-211): `message[i : i + 4095]` for i = 0, 4095, 8190, ... .
Structured with a fuel argument (the list length) so it reduces by
kernel computation; `sendChunks` instantiates the fuel. -/
def chunksGo : Nat → List Char → List (List Char)
  | _, [] => []
  | 0, _ :: _ => []
  | n + 1, c :: cs => (c :: cs).take 4095 :: chunksGo n ((c :: cs).drop 4095)

/-- The successive slices `message[i : i + 4095]` sent by `send_long_message`. -/
def sendChunks (s : List Char) : List (List Char) :=
  chunksGo s.length s

/-- main.py `send_long_message` (lines 208-211): sends the message in
4095-character slices; a transport failure raises out of the loop. -/
def send_long_message (env : Env) (chatId : Nat) (message : String) :
    Except PyError (List Event) :=
  if env.sendOk then
    .ok ((sendChunks message.data).map (fun c => .sendMessage chatId (String.mk c)))
  else if message.data.isEmpty then .ok []
  else .error .transportError

/-- The notification text of `prompt_for_email_option` (line 311). -/
def promptText : String :=
  "Report ready. You can edit the subject and message, or send the email directly."

/-- The three inline-keyboard callback datas bound to a report id
(`edit_subject`, `edit_message`, `send_email`). -/
def controlButtons (report_id : String) : List String :=
  ["edit_subject:" ++ report_id, "edit_message:" ++ report_id,
   "send_email:" ++ report_id]

/-- main.py `prompt_for_email_option` (lines 280-313): draws a fresh uuid
(`env.reportId`), stores the report body under `message:<id>` and the
date-stamped default subject under `subject:<id>` with plain SET (no
TTL), then sends the ready notification with the three controls. On a
failure the error carries the store, since the writes are not rolled
back. -/
def prompt_for_email_option (env : Env) (chatId : Nat) (report : String)
    (st : Store) : Except (PyError × Store) (Store × List Event) :=
  let report_id := env.reportId
  if env.redisOk then
    let st1 := redisSet st ("message:" ++ report_id) report
    let st2 := redisSet st1 ("subject:" ++ report_id) ("Notes " ++ env.today)
    match bot_sendMarkup env chatId promptText (controlButtons report_id) with
    | .ok ev => .ok (st2, [ev])
    | .error e => .error (e, st2)
  else .error (.redisError, st)

/-- The try-block of main.py `process_audio` (lines 255-271): the staged
pipeline compress → transcribe → generate → deliver → stage-and-notify,
with one stage-specific failure message per failing stage. Returns the
store, file system and event trace together with the exception, if any,
that escaped the block. -/
def processBody (env : Env) (input_path output_path : String) (chat_id : Nat)
    (fs0 : List String) (st0 : Store) :
    Store × List String × List Event × Option PyError :=
  match compress_audio env input_path output_path fs0 with
  | (c, fs1, ev1) =>
    match otruthy c with
    | some compressed_path =>
      match transcribe_audio env compressed_path fs1 with
      | (t, ev2) =>
        match otruthy t with
        | some transcription =>
          match generate_report env transcription with
          | (r, ev3) =>
            match otruthy r with
            | some report =>
              match send_long_message env chat_id report with
              | .ok ev4 =>
                match prompt_for_email_option env chat_id report st0 with
                | .ok (st1, ev5) =>
                  (st1, fs1, ev1 ++ ev2 ++ ev3 ++ ev4 ++ ev5, none)
                | .error (e, st1) =>
                  (st1, fs1, ev1 ++ ev2 ++ ev3 ++ ev4, some e)
              | .error e => (st0, fs1, ev1 ++ ev2 ++ ev3, some e)
            | none =>
              match bot_send env chat_id "Failed to generate report." with
              | .ok ev => (st0, fs1, ev1 ++ ev2 ++ ev3 ++ [ev], none)
              | .error e => (st0, fs1, ev1 ++ ev2 ++ ev3, some e)
        | none =>
          match bot_send env chat_id "Failed to transcribe audio." with
          | .ok ev => (st0, fs1, ev1 ++ ev2 ++ [ev], none)
          | .error e => (st0, fs1, ev1 ++ ev2, some e)
    | none =>
      match bot_send env chat_id "Failed to compress audio." with
      | .ok ev => (st0, fs1, ev1 ++ [ev], none)
      | .error e => (st0, fs1, ev1, some e)

/-- The finally-block of `process_audio` (lines 273-277): removes
`input_path` and `output_path`, guarded only by string truthiness
(`if input_path:`), so a missing file raises FileNotFoundError and the
second removal is skipped. -/
def finallyRemove (fs : List String) (p1 p2 : String) :
    List String × Option PyError :=
  match (if p1.data.isEmpty then Except.ok fs else osRemove fs p1) with
  | .error e => (fs, some e)
  | .ok fsA =>
    match (if p2.data.isEmpty then Except.ok fsA else osRemove fsA p2) with
    | .error e => (fsA, some e)
    | .ok fsB => (fsB, none)

/-- The complete outcome of one `process_audio` job. -/
structure RunResult where
  fs : List String
  store : Store
  events : List Event
  err : Option PyError
deriving DecidableEq

/-- The except- and finally-clauses of `process_audio` (lines 270-277):
any exception from the try-block is converted into a console print
(`except Exception: print(...)` — nothing is sent to the chat), then the
finally-block removes both paths; an exception it raises escapes. -/
def processFinish (body : Store × List String × List Event × Option PyError)
    (p1 p2 : String) : RunResult :=
  ⟨(finallyRemove body.2.1 p1 p2).1, body.1,
   (match body.2.2.2 with
    | none => body.2.2.1
    | some _ => body.2.2.1 ++ [Event.log "Unexpected error"]),
   (finallyRemove body.2.1 p1 p2).2⟩

/-- main.py `process_audio` (lines 248-277): the try-block pipeline
followed by the except- and finally-clauses, with
`output_path = downloads/compressed_<basename>`. -/
def process_audio (env : Env) (input_path : String) (chat_id : Nat)
    (fs0 : List String) (st0 : Store) : RunResult :=
  processFinish
    (processBody env input_path
      ("downloads/" ++ ("compressed_" ++ basename input_path)) chat_id fs0 st0)
    input_path ("downloads/" ++ ("compressed_" ++ basename input_path))

/-- Python `s.split(":", 1)`: at most one split, at the first colon. -/
def splitOnce (s : String) : List String :=
  if s.data.contains ':' then
    [String.mk (s.data.takeWhile (fun c => !(c == ':'))),
     String.mk ((s.data.dropWhile (fun c => !(c == ':'))).drop 1)]
  else [s]

/-- Which artifact field a pending next-message handler will write. -/
inductive TargetField
  | subjectF
  | bodyF
deriving DecidableEq

/-- The registration made by `bot.register_next_step_handler_by_chat_id`:
the next free-text message of `chatId` is consumed for `field` of
`report_id`. -/
structure Pending where
  chatId : Nat
  target : TargetField
  report_id : String
deriving DecidableEq

/-- main.py `handle_edit_subject` (lines 316-323): parses the report id
with `split(":", 1)[1]`, prompts for the new subject and registers the
next-step handler for the same chat. -/
def handle_edit_subject (env : Env) (callData : String) (chatId : Nat) :
    Except PyError (List Event × Pending) :=
  match (splitOnce callData).get? 1 with
  | none => .error .indexError
  | some report_id =>
    match bot_send env chatId "Please enter the new subject:" with
    | .ok ev => .ok ([ev], ⟨chatId, .subjectF, report_id⟩)
    | .error e => .error e

/-- main.py `handle_edit_message` (lines 335-342), analogous. -/
def handle_edit_message (env : Env) (callData : String) (chatId : Nat) :
    Except PyError (List Event × Pending) :=
  match (splitOnce callData).get? 1 with
  | none => .error .indexError
  | some report_id =>
    match bot_send env chatId "Please enter the new message:" with
    | .ok ev => .ok ([ev], ⟨chatId, .bodyF, report_id⟩)
    | .error e => .error e

/-- Python `value or placeholder` applied to an optional string
(`subject = subject or "(No Subject)"`). -/
def orPlaceholder (v : Option String) (ph : String) : String :=
  match otruthy v with
  | some s => s
  | none => ph

/-- The chat text rendered by `display_report` (lines 396-402). -/
def renderReport (subject message : String) : String :=
  "\nSubject: \n" ++ subject ++ "\n    \nBody:\n" ++ message ++ "\n    "

/-- main.py `display_report` (lines 385-421): reads both fields, renders
them with placeholders for absent values, and sends the text with the
same three controls bound to the report id. -/
def display_report (env : Env) (chatId : Nat) (report_id : String)
    (st : Store) (now : Nat) : Except PyError (List Event) :=
  let subject := orPlaceholder (redisGet st now ("subject:" ++ report_id)) "(No Subject)"
  let message := orPlaceholder (redisGet st now ("message:" ++ report_id)) "(No Message)"
  match bot_sendMarkup env chatId (renderReport subject message)
      (controlButtons report_id) with
  | .ok ev => .ok [ev]
  | .error e => .error e

/-- main.py `save_subject` (lines 326-332): stores the submitted text
under `subject:<id>` with plain SET, then re-displays the report. -/
def save_subject (env : Env) (text report_id : String) (chatId : Nat)
    (st : Store) (now : Nat) : Except (PyError × Store) (Store × List Event) :=
  if env.redisOk then
    let st1 := redisSet st ("subject:" ++ report_id) text
    match display_report env chatId report_id st1 now with
    | .ok evs => .ok (st1, evs)
    | .error e => .error (e, st1)
  else .error (.redisError, st)

/-- main.py `save_message` (lines 345-351), analogous, for `message:<id>`. -/
def save_message (env : Env) (text report_id : String) (chatId : Nat)
    (st : Store) (now : Nat) : Except (PyError × Store) (Store × List Event) :=
  if env.redisOk then
    let st1 := redisSet st ("message:" ++ report_id) text
    match display_report env chatId report_id st1 now with
    | .ok evs => .ok (st1, evs)
    | .error e => .error (e, st1)
  else .error (.redisError, st)

/-- main.py `send_email` (lines 48-68): builds the mail and submits it to
SMTP; both outcomes are printed and any exception is caught and
discarded, so the caller never observes a delivery failure. -/
def send_email (env : Env) (subject message to_email : String) : List Event :=
  .mailAttempt to_email subject message ::
    (if env.mailOk then [.log "Email sent successfully"]
     else [.log "Error sending email"])

/-- The subject fallback of `handle_send_email` (lines 363-367): the
stored subject if truthy, else a freshly computed date-stamped default. -/
def subjectOrDefault (env : Env) (st : Store) (now : Nat) (report_id : String) :
    String :=
  match otruthy (redisGet st now ("subject:" ++ report_id)) with
  | some s => s
  | none => "Notes " ++ env.today

/-- main.py `handle_send_email` (lines 354-382): parses the report id,
reads subject (with default) and body; an absent (or empty) body answers
"Report not found." and stops. Otherwise it mails every configured
recipient, deletes the bare id key and both namespaced keys, and replies
"Email sent successfully." unconditionally. -/
def handle_send_email (env : Env) (callData : String) (chatId : Nat)
    (st : Store) (now : Nat) : Except (PyError × Store) (Store × List Event) :=
  match (splitOnce callData).get? 1 with
  | none => .error (.indexError, st)
  | some report_id =>
    let subject := subjectOrDefault env st now report_id
    match otruthy (redisGet st now ("message:" ++ report_id)) with
    | none =>
      match bot_send env chatId "Report not found." with
      | .ok ev => .ok (st, [ev])
      | .error e => .error (e, st)
    | some message =>
      let mailEvs := if env.toEmail.isEmpty then []
        else (env.toEmail.map (fun r => send_email env subject message r)).flatten
      let st1 := redisDelete st report_id
      let st2 := redisDelete st1 ("subject:" ++ report_id)
      let st3 := redisDelete st2 ("message:" ++ report_id)
      match bot_send env chatId "Email sent successfully." with
      | .ok ev => .ok (st3, mailEvs ++ [ev])
      | .error e => .error (e, st3)

/-! ### Event classification -/

/-- Events visible in the chat. -/
def isChatMessage : Event → Bool
  | .sendMessage _ _ => true
  | .sendMarkup _ _ _ => true
  | _ => false

/-- Invocations of the transcription or generation adapter. -/
def isAdapterCall : Event → Bool
  | .transcribeCall _ => true
  | .generateCall _ => true
  | _ => false

/-- Invocations of the mail transport. -/
def isMailAttempt : Event → Bool
  | .mailAttempt _ _ _ => true
  | _ => false

/-- The three stage-specific failure messages of `process_audio`. -/
def isStageFailureMsg : Event → Bool
  | .sendMessage _ t =>
      (t == "Failed to compress audio.") || (t == "Failed to transcribe audio.")
        || (t == "Failed to generate report.")
  | _ => false

/-- The ready-for-review notification (the only markup send in a job). -/
def isReadyPrompt : Event → Bool
  | .sendMarkup _ _ _ => true
  | _ => false

/-- A terminal per-job message: a stage failure or the ready prompt. -/
def isTerminal (e : Event) : Bool := isStageFailureMsg e || isReadyPrompt e

/-- How many terminal messages a trace contains. -/
def terminalCount (evs : List Event) : Nat := (evs.filter isTerminal).length

/-- Environment of an entirely successful run. -/
def envFull : Env :=
  ⟨true, true, some "t", some "note", true, true, true, "r1", "01/01/2026", ["a@b"]⟩

/-- Environment of a run whose input has no audio stream. -/
def envNoAudio : Env :=
  ⟨false, true, some "t", some "note", true, true, true, "r1", "01/01/2026", ["a@b"]⟩

/-- Environment where the input has no audio stream and the chat
transport is down, so the failure reply itself raises. -/
def envCrash : Env :=
  ⟨false, true, none, none, false, true, true, "r", "01/01/2026", []⟩

/-- Environment where every SMTP delivery raises inside `send_email`. -/
def envMailFail : Env :=
  ⟨true, true, some "t", some "note", true, true, false, "r1", "01/01/2026", ["a@b"]⟩

/-- Environment used for the C1 counterexample. -/
def envC1 : Env :=
  ⟨true, true, some "t", some "note", true, true, true, "r", "02/01/2026", []⟩

/-! ### The review/dispatch transition system (claim C7)

A system state is the staging store together with the history facts the
invariant speaks about: which report ids have received their ready
notification and which have been terminally sent. One transition is one
complete handler execution, built directly from the embedded handler
functions. Report ids drawn by `uuid.uuid4()` consist of hex digits and
dashes, so every constructor records that the id contains no colon. -/

structure Sys where
  redis : Store
  notified : List String
  sentIds : List String

/-- The initial state: empty store, nothing notified, nothing sent. -/
def initSys : Sys := ⟨[], [], []⟩

/-- All handler-level transitions of the system, including the failure
path in which staging writes the artifact but the ready notification
raises, and edit submissions arriving after a send (the buttons stay in
the chat history, and the code has no guard against either). -/
inductive Step : Sys → Sys → Prop
  | stage (env : Env) (chat : Nat) (report : String) (s : Sys)
      (st' : Store) (evs : List Event)
      (hcf : env.reportId.data.contains ':' = false)
      (hn : env.reportId ∉ s.notified) (hsent : env.reportId ∉ s.sentIds)
      (hok : prompt_for_email_option env chat report s.redis = .ok (st', evs)) :
      Step s ⟨st', s.notified ++ [env.reportId], s.sentIds⟩
  | stageNoNotify (env : Env) (chat : Nat) (report : String) (s : Sys)
      (st' : Store) (e : PyError)
      (hcf : env.reportId.data.contains ':' = false)
      (hn : env.reportId ∉ s.notified) (hsent : env.reportId ∉ s.sentIds)
      (hfail : prompt_for_email_option env chat report s.redis
        = .error (e, st')) :
      Step s ⟨st', s.notified, s.sentIds⟩
  | editSubject (env : Env) (chat now : Nat) (text rid : String) (s : Sys)
      (st' : Store) (evs : List Event)
      (hcf : rid.data.contains ':' = false)
      (hn : rid ∈ s.notified)
      (hok : save_subject env text rid chat s.redis now = .ok (st', evs)) :
      Step s ⟨st', s.notified, s.sentIds⟩
  | editBody (env : Env) (chat now : Nat) (text rid : String) (s : Sys)
      (st' : Store) (evs : List Event)
      (hcf : rid.data.contains ':' = false)
      (hn : rid ∈ s.notified)
      (hok : save_message env text rid chat s.redis now = .ok (st', evs)) :
      Step s ⟨st', s.notified, s.sentIds⟩
  | sendFound (env : Env) (chat now : Nat) (rid : String) (s : Sys)
      (st' : Store) (evs : List Event)
      (hcf : rid.data.contains ':' = false)
      (hn : rid ∈ s.notified)
      (hbody : otruthy (redisGet s.redis now ("message:" ++ rid)) ≠ none)
      (hok : handle_send_email env ("send_email:" ++ rid) chat s.redis now
        = .ok (st', evs)) :
      Step s ⟨st', s.notified, s.sentIds ++ [rid]⟩
  | sendNotFound (env : Env) (chat now : Nat) (rid : String) (s : Sys)
      (st' : Store) (evs : List Event)
      (hcf : rid.data.contains ':' = false)
      (hn : rid ∈ s.notified)
      (hbody : otruthy (redisGet s.redis now ("message:" ++ rid)) = none)
      (hok : handle_send_email env ("send_email:" ++ rid) chat s.redis now
        = .ok (st', evs)) :
      Step s ⟨st', s.notified, s.sentIds⟩

/-- The transitions of well-behaved runs: the ready notification is
delivered (no `stageNoNotify`), and no edit is submitted for a report id
whose send has already completed. -/
inductive StepGood : Sys → Sys → Prop
  | stage (env : Env) (chat : Nat) (report : String) (s : Sys)
      (st' : Store) (evs : List Event)
      (hcf : env.reportId.data.contains ':' = false)
      (hn : env.reportId ∉ s.notified) (hsent : env.reportId ∉ s.sentIds)
      (hok : prompt_for_email_option env chat report s.redis = .ok (st', evs)) :
      StepGood s ⟨st', s.notified ++ [env.reportId], s.sentIds⟩
  | editSubject (env : Env) (chat now : Nat) (text rid : String) (s : Sys)
      (st' : Store) (evs : List Event)
      (hcf : rid.data.contains ':' = false)
      (hn : rid ∈ s.notified) (hsent : rid ∉ s.sentIds)
      (hok : save_subject env text rid chat s.redis now = .ok (st', evs)) :
      StepGood s ⟨st', s.notified, s.sentIds⟩
  | editBody (env : Env) (chat now : Nat) (text rid : String) (s : Sys)
      (st' : Store) (evs : List Event)
      (hcf : rid.data.contains ':' = false)
      (hn : rid ∈ s.notified) (hsent : rid ∉ s.sentIds)
      (hok : save_message env text rid chat s.redis now = .ok (st', evs)) :
      StepGood s ⟨st', s.notified, s.sentIds⟩
  | sendFound (env : Env) (chat now : Nat) (rid : String) (s : Sys)
      (st' : Store) (evs : List Event)
      (hcf : rid.data.contains ':' = false)
      (hn : rid ∈ s.notified)
      (hbody : otruthy (redisGet s.redis now ("message:" ++ rid)) ≠ none)
      (hok : handle_send_email env ("send_email:" ++ rid) chat s.redis now
        = .ok (st', evs)) :
      StepGood s ⟨st', s.notified, s.sentIds ++ [rid]⟩
  | sendNotFound (env : Env) (chat now : Nat) (rid : String) (s : Sys)
      (st' : Store) (evs : List Event)
      (hcf : rid.data.contains ':' = false)
      (hn : rid ∈ s.notified)
      (hbody : otruthy (redisGet s.redis now ("message:" ++ rid)) = none)
      (hok : handle_send_email env ("send_email:" ++ rid) chat s.redis now
        = .ok (st', evs)) :
      StepGood s ⟨st', s.notified, s.sentIds⟩

/-- States reachable by any sequence of handler executions. -/
def Reachable (s : Sys) : Prop := Relation.ReflTransGen Step initSys s

/-- States reachable by well-behaved runs only. -/
def ReachableGood (s : Sys) : Prop := Relation.ReflTransGen StepGood initSys s

/-- A Staged Artifact for `rid` is present: at least one of its two keys
is live in the store. -/
def artifactPresent (st : Store) (now : Nat) (rid : String) : Prop :=
  redisGet st now ("subject:" ++ rid) ≠ none
    ∨ redisGet st now ("message:" ++ rid) ≠ none

/-- The C7 invariant: an artifact is in the store iff its ready
notification was sent and no terminal send has completed. -/
def InvC7 (s : Sys) : Prop :=
  ∀ rid now, artifactPresent s.redis now rid
    ↔ (rid ∈ s.notified ∧ rid ∉ s.sentIds)

/-- State after staging report "note" under id "r1". -/
def sysA : Sys :=
  ⟨[("subject:r1", "Notes 01/01/2026", none), ("message:r1", "note", none)],
   ["r1"], []⟩

/-- State after the terminal send for "r1". -/
def sysB : Sys := ⟨[], ["r1"], ["r1"]⟩

/-- State after an edit-body submission arriving after the send. -/
def sysC : Sys := ⟨[("message:r1", "x", none)], ["r1"], ["r1"]⟩

/-! ### Staging-store lemmas -/

theorem find?_filter_ne (st : Store) (k k' : String) (h : k ≠ k') :
    (st.filter (fun e => !(e.1 == k'))).find? (fun e => e.1 == k) =
      st.find? (fun e => e.1 == k) := by
  induction st with
  | nil => rfl
  | cons a l ih =>
    by_cases ha : a.1 = k'
    · have h1 : (a.1 == k') = true := beq_iff_eq.mpr ha
      have h2 : (a.1 == k) = false := beq_eq_false_iff_ne.mpr (by
        intro hh; exact h (hh.symm.trans ha))
      simp [List.filter_cons, h1, h2, List.find?_cons, ih]
    · have h1 : (a.1 == k') = false := beq_eq_false_iff_ne.mpr ha
      by_cases hk : a.1 = k
      · simp [List.filter_cons, h1, List.find?_cons, beq_iff_eq.mpr hk]
      · simp [List.filter_cons, h1, List.find?_cons,
          beq_eq_false_iff_ne.mpr hk, ih]

theorem find?_filter_self (st : Store) (k : String) :
    (st.filter (fun e => !(e.1 == k))).find? (fun e => e.1 == k) = none := by
  rw [List.find?_eq_none]
  intro x hx
  have := (List.mem_filter.mp hx).2
  simp only [Bool.not_eq_true'] at this
  simp [this]

theorem redisGet_set_self (st : Store) (k v : String) (now : Nat) :
    redisGet (redisSet st k v) now k = some v := by
  unfold redisGet redisSet
  rw [List.find?_cons_of_pos _ (by simp)]

theorem redisGet_set_ne (st : Store) (k k' v : String) (now : Nat)
    (h : k ≠ k') : redisGet (redisSet st k' v) now k = redisGet st now k := by
  simp [redisGet, redisSet, List.find?_cons, beq_eq_false_iff_ne.mpr
    (fun hh => h hh.symm), find?_filter_ne st k k' h]

theorem redisGet_delete_self (st : Store) (k : String) (now : Nat) :
    redisGet (redisDelete st k) now k = none := by
  unfold redisGet redisDelete
  rw [find?_filter_self]

theorem redisGet_delete_ne (st : Store) (k k' : String) (now : Nat)
    (h : k ≠ k') : redisGet (redisDelete st k') now k = redisGet st now k := by
  simp [redisGet, redisDelete, find?_filter_ne st k k' h]

/-! ### Key-namespace lemmas -/

theorem string_data_eq (s t : String) (h : s.data = t.data) : s = t := by
  cases s; cases t; exact congrArg String.mk h

theorem string_append_left_cancel (a r r' : String)
    (h : a ++ r = a ++ r') : r = r' := by
  have hd : a.data ++ r.data = a.data ++ r'.data := by
    have := congrArg String.data h
    simpa [String.data_append] using this
  exact string_data_eq _ _ (List.append_cancel_left hd)

theorem subject_key_ne_message_key (r r' : String) :
    ("subject:" ++ r) ≠ ("message:" ++ r') := by
  intro h
  have hd := congrArg String.data h
  simp only [String.data_append] at hd
  simp at hd

theorem subject_key_inj (r r' : String)
    (h : ("subject:" ++ r) = ("subject:" ++ r')) : r = r' :=
  string_append_left_cancel _ _ _ h

theorem message_key_inj (r r' : String)
    (h : ("message:" ++ r) = ("message:" ++ r')) : r = r' :=
  string_append_left_cancel _ _ _ h

theorem colon_mem_subject_key (r : String) :
    ':' ∈ ("subject:" ++ r).data := by
  rw [String.data_append]
  exact List.mem_append_left _ (by decide)

theorem colon_mem_message_key (r : String) :
    ':' ∈ ("message:" ++ r).data := by
  rw [String.data_append]
  exact List.mem_append_left _ (by decide)

theorem colonfree_ne_subject_key (r r' : String)
    (h : r.data.contains ':' = false) : ("subject:" ++ r') ≠ r := by
  intro hh
  have hmem : ':' ∈ r.data := hh ▸ colon_mem_subject_key r'
  have h2 : r.data.contains ':' = true := List.elem_iff.mpr hmem
  exact Bool.false_ne_true (h.symm.trans h2)

theorem colonfree_ne_message_key (r r' : String)
    (h : r.data.contains ':' = false) : ("message:" ++ r') ≠ r := by
  intro hh
  have hmem : ':' ∈ r.data := hh ▸ colon_mem_message_key r'
  have h2 : r.data.contains ':' = true := List.elem_iff.mpr hmem
  exact Bool.false_ne_true (h.symm.trans h2)

/-! ### Callback-token parsing lemmas -/

theorem takeWhile_colonfree_append (l1 l2 : List Char)
    (h : ∀ c ∈ l1, c ≠ ':') :
    (l1 ++ ':' :: l2).takeWhile (fun c => !(c == ':')) = l1 := by
  induction l1 with
  | nil => simp [List.takeWhile_cons]
  | cons a l ih =>
    have ha : (a == ':') = false :=
      beq_eq_false_iff_ne.mpr (h a (List.mem_cons_self a l))
    simp [List.takeWhile_cons, ha,
      ih (fun c hc => h c (List.mem_cons_of_mem a hc))]

theorem dropWhile_colonfree_append (l1 l2 : List Char)
    (h : ∀ c ∈ l1, c ≠ ':') :
    (l1 ++ ':' :: l2).dropWhile (fun c => !(c == ':')) = ':' :: l2 := by
  induction l1 with
  | nil => simp [List.dropWhile_cons]
  | cons a l ih =>
    have ha : (a == ':') = false :=
      beq_eq_false_iff_ne.mpr (h a (List.mem_cons_self a l))
    simp [List.dropWhile_cons, ha,
      ih (fun c hc => h c (List.mem_cons_of_mem a hc))]

theorem splitOnce_token (a rid : String) (h : ∀ c ∈ a.data, c ≠ ':') :
    (splitOnce (a ++ ":" ++ rid))[1]? = some rid := by
  have hdata : (a ++ ":" ++ rid).data = a.data ++ ':' :: rid.data := by
    simp [String.data_append]
  have hc : (a ++ ":" ++ rid).data.contains ':' = true := by
    rw [hdata, List.elem_iff]
    exact List.mem_append_right _ (List.mem_cons_self _ _)
  unfold splitOnce
  rw [hdata] at hc ⊢
  rw [if_pos hc, takeWhile_colonfree_append _ _ h,
    dropWhile_colonfree_append _ _ h]
  simp

/-! ### Chunking lemmas -/

theorem chunksGo_flatten (n : Nat) (s : List Char) (h : s.length ≤ n) :
    (chunksGo n s).flatten = s := by
  induction n generalizing s with
  | zero =>
    cases s with
    | nil => rfl
    | cons c cs => simp at h
  | succ n ih =>
    cases s with
    | nil => rfl
    | cons c cs =>
      rw [chunksGo, List.flatten_cons, ih _ (by simp at h ⊢; omega)]
      exact List.take_append_drop 4095 (c :: cs)

theorem chunksGo_length (n : Nat) (s : List Char) (h : s.length ≤ n) :
    (chunksGo n s).length = (s.length + 4094) / 4095 := by
  induction n generalizing s with
  | zero =>
    cases s with
    | nil => simp [chunksGo]
    | cons c cs => simp at h
  | succ n ih =>
    cases s with
    | nil => simp [chunksGo]
    | cons c cs =>
      rw [chunksGo, List.length_cons, ih _ (by simp at h ⊢; omega)]
      have hgoal : ((c :: cs).drop 4095).length = (c :: cs).length - 4095 :=
        List.length_drop 4095 (c :: cs)
      rw [hgoal]
      have hlen : 1 ≤ (c :: cs).length := by simp
      rcases Nat.lt_or_ge 4095 (c :: cs).length with hgt | hle
      · have h1 : (c :: cs).length - 4095 + 4094 = ((c :: cs).length - 1) := by
          omega
        have h2 : (c :: cs).length + 4094 = ((c :: cs).length - 1) + 4095 := by
          omega
        rw [h1, h2, Nat.add_div_right _ (by norm_num)]
      · have h1 : (c :: cs).length - 4095 = 0 := by omega
        have h2 : (c :: cs).length + 4094 = ((c :: cs).length - 1) + 4095 := by
          omega
        rw [h1, h2, Nat.add_div_right _ (by norm_num),
          Nat.div_eq_of_lt (show (0 : Nat) + 4094 < 4095 by omega),
          Nat.div_eq_of_lt (show (c :: cs).length - 1 < 4095 by omega)]

theorem chunksGo_bound (n : Nat) (s : List Char) (h : s.length ≤ n) :
    ∀ c ∈ chunksGo n s, c.length ≤ 4095 := by
  induction n generalizing s with
  | zero =>
    cases s with
    | nil => intro c hc; simp [chunksGo] at hc
    | cons c cs => simp at h
  | succ n ih =>
    cases s with
    | nil => intro c hc; simp [chunksGo] at hc
    | cons c cs =>
      intro d hd
      rw [chunksGo] at hd
      rcases List.mem_cons.mp hd with heq | hmem
      · subst heq
        rw [List.length_take]
        exact Nat.min_le_left _ _
      · exact ih _ (by simp at h ⊢; omega) d hmem

theorem sendChunks_flatten (s : List Char) : (sendChunks s).flatten = s :=
  chunksGo_flatten s.length s (Nat.le_refl _)

theorem sendChunks_length (s : List Char) :
    (sendChunks s).length = (s.length + 4094) / 4095 :=
  chunksGo_length s.length s (Nat.le_refl _)

theorem sendChunks_bound (s : List Char) :
    ∀ c ∈ sendChunks s, c.length ≤ 4095 :=
  chunksGo_bound s.length s (Nat.le_refl _)

theorem filter_eq_nil_of_false {p : Event → Bool} {l : List Event}
    (h : ∀ e ∈ l, p e = false) : l.filter p = [] :=
  List.filter_eq_nil_iff.mpr (by intro a ha; simp [h a ha])

theorem compress_events_log (env : Env) (i o : String) (fs : List String) :
    ∀ e ∈ (compress_audio env i o fs).2.2, ∃ t, e = Event.log t := by
  intro e he
  by_cases h1 : i ∈ fs <;> by_cases h2 : env.hasAudioStream = true <;>
    by_cases h3 : env.transcodeOk = true <;>
    simp [compress_audio, h1, h2, h3] at he <;> exact ⟨_, he⟩

theorem transcribe_events_class (env : Env) (p : String) (fs : List String) :
    ∀ e ∈ (transcribe_audio env p fs).2,
      isChatMessage e = false ∧ isTerminal e = false := by
  intro e he
  by_cases h1 : p ∈ fs <;> simp [transcribe_audio, h1] at he <;>
    subst he <;> exact ⟨rfl, rfl⟩

/-! ### Handler characterization lemmas -/

theorem appendColon (a : String) : a ++ ":" = String.mk (a.data ++ [':']) := by
  apply string_data_eq
  simp [String.data_append]

theorem prompt_ok_eq (env : Env) (chatId : Nat) (report : String) (st : Store)
    (hr : env.redisOk = true) (hs : env.sendOk = true) :
    prompt_for_email_option env chatId report st =
      .ok (redisSet (redisSet st ("message:" ++ env.reportId) report)
             ("subject:" ++ env.reportId) ("Notes " ++ env.today),
           [.sendMarkup chatId promptText (controlButtons env.reportId)]) := by
  simp [prompt_for_email_option, bot_sendMarkup, hr, hs]

theorem prompt_ok_inv (env : Env) (chatId : Nat) (report : String)
    (st st' : Store) (evs : List Event)
    (h : prompt_for_email_option env chatId report st = .ok (st', evs)) :
    st' = redisSet (redisSet st ("message:" ++ env.reportId) report)
            ("subject:" ++ env.reportId) ("Notes " ++ env.today) := by
  cases hr : env.redisOk with
  | false => simp [prompt_for_email_option, hr] at h
  | true =>
    cases hs : env.sendOk with
    | false => simp [prompt_for_email_option, bot_sendMarkup, hr, hs] at h
    | true =>
      simp [prompt_for_email_option, bot_sendMarkup, hr, hs] at h
      exact h.1.symm

theorem prompt_err_inv (env : Env) (chatId : Nat) (report : String)
    (st st' : Store) (e : PyError)
    (h : prompt_for_email_option env chatId report st = .error (e, st')) :
    st' = st ∨
      st' = redisSet (redisSet st ("message:" ++ env.reportId) report)
              ("subject:" ++ env.reportId) ("Notes " ++ env.today) := by
  cases hr : env.redisOk with
  | false =>
    simp [prompt_for_email_option, hr] at h
    exact Or.inl h.2.symm
  | true =>
    cases hs : env.sendOk with
    | false =>
      simp [prompt_for_email_option, bot_sendMarkup, hr, hs] at h
      exact Or.inr h.2.symm
    | true => simp [prompt_for_email_option, bot_sendMarkup, hr, hs] at h

theorem save_subject_ok_eq (env : Env) (text rid : String) (chat : Nat)
    (st : Store) (now : Nat) (hr : env.redisOk = true) (hs : env.sendOk = true) :
    save_subject env text rid chat st now =
      .ok (redisSet st ("subject:" ++ rid) text,
           [.sendMarkup chat
             (renderReport (orPlaceholder (some text) "(No Subject)")
               (orPlaceholder (redisGet st now ("message:" ++ rid)) "(No Message)"))
             (controlButtons rid)]) := by
  simp [save_subject, display_report, bot_sendMarkup, hr, hs,
    redisGet_set_self,
    redisGet_set_ne st ("message:" ++ rid) ("subject:" ++ rid) text now
      (Ne.symm (subject_key_ne_message_key rid rid))]

theorem save_subject_ok_inv (env : Env) (text rid : String) (chat : Nat)
    (st st' : Store) (now : Nat) (evs : List Event)
    (h : save_subject env text rid chat st now = .ok (st', evs)) :
    st' = redisSet st ("subject:" ++ rid) text := by
  cases hr : env.redisOk with
  | false => simp [save_subject, hr] at h
  | true =>
    cases hs : env.sendOk with
    | false => simp [save_subject, display_report, bot_sendMarkup, hr, hs] at h
    | true =>
      simp [save_subject, display_report, bot_sendMarkup, hr, hs] at h
      exact h.1.symm

theorem save_message_ok_eq (env : Env) (text rid : String) (chat : Nat)
    (st : Store) (now : Nat) (hr : env.redisOk = true) (hs : env.sendOk = true) :
    save_message env text rid chat st now =
      .ok (redisSet st ("message:" ++ rid) text,
           [.sendMarkup chat
             (renderReport
               (orPlaceholder (redisGet st now ("subject:" ++ rid)) "(No Subject)")
               (orPlaceholder (some text) "(No Message)"))
             (controlButtons rid)]) := by
  simp [save_message, display_report, bot_sendMarkup, hr, hs,
    redisGet_set_self,
    redisGet_set_ne st ("subject:" ++ rid) ("message:" ++ rid) text now
      (subject_key_ne_message_key rid rid)]

theorem save_message_ok_inv (env : Env) (text rid : String) (chat : Nat)
    (st st' : Store) (now : Nat) (evs : List Event)
    (h : save_message env text rid chat st now = .ok (st', evs)) :
    st' = redisSet st ("message:" ++ rid) text := by
  cases hr : env.redisOk with
  | false => simp [save_message, hr] at h
  | true =>
    cases hs : env.sendOk with
    | false => simp [save_message, display_report, bot_sendMarkup, hr, hs] at h
    | true =>
      simp [save_message, display_report, bot_sendMarkup, hr, hs] at h
      exact h.1.symm

theorem splitOnce_send_email (rid : String) :
    (splitOnce ("send_email:" ++ rid))[1]? = some rid := by
  have h : ("send_email:" ++ rid) = ("send_email" ++ ":" ++ rid) := rfl
  rw [h]
  exact splitOnce_token "send_email" rid (by decide)

theorem mail_if_flatten (env : Env) (subj msg : String) (tos : List String) :
    (if tos.isEmpty then ([] : List Event)
     else (tos.map (fun r => send_email env subj msg r)).flatten) =
      (tos.map (fun r => send_email env subj msg r)).flatten := by
  cases tos <;> simp

theorem mail_if_flatten_nil (env : Env) (subj msg : String) (tos : List String) :
    (if tos = [] then ([] : List Event)
     else (tos.map (fun r => send_email env subj msg r)).flatten) =
      (tos.map (fun r => send_email env subj msg r)).flatten := by
  cases tos <;> simp

theorem handle_send_found_eq (env : Env) (rid b : String) (chat : Nat)
    (st : Store) (now : Nat) (hs : env.sendOk = true)
    (hb : otruthy (redisGet st now ("message:" ++ rid)) = some b) :
    handle_send_email env ("send_email:" ++ rid) chat st now =
      .ok (redisDelete (redisDelete (redisDelete st rid) ("subject:" ++ rid))
             ("message:" ++ rid),
           (env.toEmail.map
             (fun r => send_email env (subjectOrDefault env st now rid) b r)).flatten
             ++ [.sendMessage chat "Email sent successfully."]) := by
  simp [handle_send_email, splitOnce_send_email, hb, bot_send, hs,
    mail_if_flatten, mail_if_flatten_nil]

theorem handle_send_notfound_eq (env : Env) (rid : String) (chat : Nat)
    (st : Store) (now : Nat) (hs : env.sendOk = true)
    (hb : otruthy (redisGet st now ("message:" ++ rid)) = none) :
    handle_send_email env ("send_email:" ++ rid) chat st now =
      .ok (st, [.sendMessage chat "Report not found."]) := by
  simp [handle_send_email, splitOnce_send_email, hb, bot_send, hs]

theorem handle_send_found_inv (env : Env) (rid : String) (chat : Nat)
    (st st' : Store) (now : Nat) (evs : List Event)
    (h : handle_send_email env ("send_email:" ++ rid) chat st now = .ok (st', evs))
    (hb : otruthy (redisGet st now ("message:" ++ rid)) ≠ none) :
    st' = redisDelete (redisDelete (redisDelete st rid) ("subject:" ++ rid))
            ("message:" ++ rid) := by
  obtain ⟨b, hbb⟩ := Option.ne_none_iff_exists'.mp hb
  cases hs : env.sendOk with
  | false =>
    simp [handle_send_email, splitOnce_send_email, hbb, bot_send, hs] at h
  | true =>
    rw [handle_send_found_eq env rid b chat st now hs hbb] at h
    simp at h
    exact h.1.symm

theorem handle_send_notfound_inv (env : Env) (rid : String) (chat : Nat)
    (st st' : Store) (now : Nat) (evs : List Event)
    (h : handle_send_email env ("send_email:" ++ rid) chat st now = .ok (st', evs))
    (hb : otruthy (redisGet st now ("message:" ++ rid)) = none) :
    st' = st := by
  cases hs : env.sendOk with
  | false =>
    simp [handle_send_email, splitOnce_send_email, hb, bot_send, hs] at h
  | true =>
    rw [handle_send_notfound_eq env rid chat st now hs hb] at h
    simp at h
    exact h.1.symm

theorem splitOnce_edit_subject (rid : String) :
    (splitOnce ("edit_subject:" ++ rid))[1]? = some rid := by
  have h : ("edit_subject:" ++ rid) = ("edit_subject" ++ ":" ++ rid) := rfl
  rw [h]
  exact splitOnce_token "edit_subject" rid (by decide)

theorem splitOnce_edit_message (rid : String) :
    (splitOnce ("edit_message:" ++ rid))[1]? = some rid := by
  have h : ("edit_message:" ++ rid) = ("edit_message" ++ ":" ++ rid) := rfl
  rw [h]
  exact splitOnce_token "edit_message" rid (by decide)

theorem mail_filter (env : Env) (subj msg : String) (tos : List String) :
    ((tos.map (fun r => send_email env subj msg r)).flatten.filter isMailAttempt)
      = tos.map (fun r => Event.mailAttempt r subj msg) := by
  induction tos with
  | nil => rfl
  | cons a l ih =>
    rw [List.map_cons, List.flatten_cons, List.filter_append, ih]
    cases hm : env.mailOk <;> simp [send_email, isMailAttempt, hm]

theorem mail_events_not_chat (env : Env) (subj msg : String) (tos : List String) :
    ∀ e ∈ (tos.map (fun r => send_email env subj msg r)).flatten,
      isChatMessage e = false := by
  intro e he
  rw [List.mem_flatten] at he
  obtain ⟨u, hu, heu⟩ := he
  rw [List.mem_map] at hu
  obtain ⟨r, _, rfl⟩ := hu
  cases hmo : env.mailOk <;> simp [send_email, hmo] at heu <;>
    rcases heu with rfl | rfl <;> rfl

/-- Claim C5: for a message of length L, `send_long_message` sends exactly
ceil(L / 4095) chat messages, each chunk has length at most 4095, and the
concatenation of the chunks in order is the original text. -/
theorem chunking_law (env : Env) (chat : Nat) (m : String)
    (h : env.sendOk = true) :
    send_long_message env chat m =
      .ok ((sendChunks m.data).map (fun c => .sendMessage chat (String.mk c)))
    ∧ (sendChunks m.data).length = (m.data.length + 4094) / 4095
    ∧ (∀ c ∈ sendChunks m.data, c.length ≤ 4095)
    ∧ (sendChunks m.data).flatten = m.data :=
  ⟨by simp [send_long_message, h], sendChunks_length m.data,
    sendChunks_bound m.data, sendChunks_flatten m.data⟩

/-- Witness for C5 at the concrete message "hello". -/
theorem chunking_law_witness :
    send_long_message envFull 7 "hello" = .ok [.sendMessage 7 "hello"] :=
  (chunking_law envFull 7 "hello" rfl).1

/-- Claim C9: every callback handler extracts the report id from
`<action>:<report_id>` by splitting on the first colon only, so a report
id that itself contains a colon is recovered intact. -/
theorem callback_parse_first_colon (rid : String) :
    (splitOnce ("edit_subject:" ++ rid)).get? 1 = some rid
    ∧ (splitOnce ("edit_message:" ++ rid)).get? 1 = some rid
    ∧ (splitOnce ("send_email:" ++ rid)).get? 1 = some rid := by
  refine ⟨?_, ?_, ?_⟩
  · rw [List.get?_eq_getElem?]
    exact splitOnce_edit_subject rid
  · rw [List.get?_eq_getElem?]
    exact splitOnce_edit_message rid
  · rw [List.get?_eq_getElem?]
    exact splitOnce_send_email rid

/-- Witness for C9 at a report id containing a colon. -/
theorem callback_parse_first_colon_witness :
    (splitOnce "send_email:a:b").get? 1 = some "a:b" :=
  (callback_parse_first_colon "a:b").2.2

/-- Claim C2 evaluation (code bug): on a fully successful job with input
`downloads/b.ogg`, the compressed file is written to
`downloads/compressed_b.mp3` but the finally-block removes the raw file
and then calls os.remove on the never-created `downloads/compressed_b.ogg`
(its guard `if output_path:` tests string truthiness, not existence),
raising FileNotFoundError and leaving the compressed file behind. -/
theorem cleanup_not_guaranteed :
    (process_audio envFull "downloads/b.ogg" 7 ["downloads/b.ogg"] []).fs
      = ["downloads/compressed_b.mp3"]
    ∧ (process_audio envFull "downloads/b.ogg" 7 ["downloads/b.ogg"] []).err
      = some (.fileNotFound "downloads/compressed_b.ogg") :=
  ⟨rfl, rfl⟩

/-- Claim C1 counterexample: the initial staging write stores both fields
with expiry `none` (no TTL is ever set or renewed), and a GET one billion
time units later still returns the body instead of absent. -/
theorem staging_ttl_refuted :
    prompt_for_email_option envC1 1 "body" [] =
      .ok ([("subject:r", "Notes 02/01/2026", none),
            ("message:r", "body", none)],
           [.sendMarkup 1 promptText
             ["edit_subject:r", "edit_message:r", "send_email:r"]])
    ∧ redisGet [("subject:r", "Notes 02/01/2026", none),
        ("message:r", "body", none)] 1000000000 "message:r" = some "body" :=
  ⟨rfl, rfl⟩

/-- Claim C1 (amended): every Staging Store write the code performs — the
initial staging of body and default subject, and each edit submission —
is a plain SET that stores no expiry, so the value is returned by GET at
every later time until explicit deletion; reads are pure and never extend
any TTL. -/
theorem staging_writes_no_ttl (env : Env) (chat : Nat)
    (report text rid : String) (st : Store) (now t1 : Nat)
    (hr : env.redisOk = true) (hs : env.sendOk = true) :
    prompt_for_email_option env chat report st =
      .ok (redisSet (redisSet st ("message:" ++ env.reportId) report)
             ("subject:" ++ env.reportId) ("Notes " ++ env.today),
           [.sendMarkup chat promptText (controlButtons env.reportId)])
    ∧ redisGet (redisSet (redisSet st ("message:" ++ env.reportId) report)
          ("subject:" ++ env.reportId) ("Notes " ++ env.today)) t1
        ("message:" ++ env.reportId) = some report
    ∧ redisGet (redisSet (redisSet st ("message:" ++ env.reportId) report)
          ("subject:" ++ env.reportId) ("Notes " ++ env.today)) t1
        ("subject:" ++ env.reportId) = some ("Notes " ++ env.today)
    ∧ save_subject env text rid chat st now =
        .ok (redisSet st ("subject:" ++ rid) text,
             [.sendMarkup chat
               (renderReport (orPlaceholder (some text) "(No Subject)")
                 (orPlaceholder (redisGet st now ("message:" ++ rid)) "(No Message)"))
               (controlButtons rid)])
    ∧ redisGet (redisSet st ("subject:" ++ rid) text) t1 ("subject:" ++ rid)
        = some text
    ∧ save_message env text rid chat st now =
        .ok (redisSet st ("message:" ++ rid) text,
             [.sendMarkup chat
               (renderReport
                 (orPlaceholder (redisGet st now ("subject:" ++ rid)) "(No Subject)")
                 (orPlaceholder (some text) "(No Message)"))
               (controlButtons rid)])
    ∧ redisGet (redisSet st ("message:" ++ rid) text) t1 ("message:" ++ rid)
        = some text := by
  refine ⟨prompt_ok_eq env chat report st hr hs, ?_, ?_,
    save_subject_ok_eq env text rid chat st now hr hs, redisGet_set_self _ _ _ _,
    save_message_ok_eq env text rid chat st now hr hs, redisGet_set_self _ _ _ _⟩
  · rw [redisGet_set_ne _ _ _ _ _ (Ne.symm (subject_key_ne_message_key _ _))]
    exact redisGet_set_self _ _ _ _
  · exact redisGet_set_self _ _ _ _

/-- Witness for C1 (amended): the staged body is still readable at time
999999 after staging at time 0. -/
theorem staging_writes_no_ttl_witness :
    redisGet [("subject:r1", "Notes 01/01/2026", none),
      ("message:r1", "note", none)] 999999 "message:r1" = some "note" :=
  (staging_writes_no_ttl envFull 1 "note" "x" "r1" [] 0 999999 rfl rfl).2.1

/-- Claim C4: on the send action, an absent (or falsy) body answers
"Report not found." with no mail and no store change; otherwise the Mail
Adapter is invoked exactly once per configured recipient with the stored
subject (or the freshly computed date-stamped default when the subject
key is absent) and the stored body, all keys of the report id are
deleted, and the success reply is sent. -/
theorem send_action_behavior (env : Env) (rid : String) (chat : Nat)
    (st : Store) (now : Nat) (hs : env.sendOk = true) :
    (otruthy (redisGet st now ("message:" ++ rid)) = none →
      handle_send_email env ("send_email:" ++ rid) chat st now =
        .ok (st, [.sendMessage chat "Report not found."]))
    ∧ (∀ b, otruthy (redisGet st now ("message:" ++ rid)) = some b →
        handle_send_email env ("send_email:" ++ rid) chat st now =
          .ok (redisDelete (redisDelete (redisDelete st rid) ("subject:" ++ rid))
                 ("message:" ++ rid),
               (env.toEmail.map (fun r =>
                 send_email env (subjectOrDefault env st now rid) b r)).flatten
                 ++ [.sendMessage chat "Email sent successfully."])
          ∧ redisGet (redisDelete (redisDelete (redisDelete st rid)
              ("subject:" ++ rid)) ("message:" ++ rid)) now ("subject:" ++ rid)
              = none
          ∧ redisGet (redisDelete (redisDelete (redisDelete st rid)
              ("subject:" ++ rid)) ("message:" ++ rid)) now ("message:" ++ rid)
              = none
          ∧ ((env.toEmail.map (fun r =>
              send_email env (subjectOrDefault env st now rid) b r)).flatten.filter
              isMailAttempt)
              = env.toEmail.map (fun r =>
                  Event.mailAttempt r (subjectOrDefault env st now rid) b)) := by
  refine ⟨fun hb => handle_send_notfound_eq env rid chat st now hs hb,
    fun b hb => ⟨handle_send_found_eq env rid b chat st now hs hb, ?_, ?_,
      mail_filter env (subjectOrDefault env st now rid) b env.toEmail⟩⟩
  · rw [redisGet_delete_ne _ _ _ _ (subject_key_ne_message_key _ _)]
    exact redisGet_delete_self _ _ _
  · exact redisGet_delete_self _ _ _

/-- Witness for C4: sending with a staged body and no subject key mails
the single configured recipient with the default subject and deletes the
body key. -/
theorem send_action_behavior_witness :
    handle_send_email envFull "send_email:r1" 7 [("message:r1", "note", none)] 0 =
      .ok ([], [.mailAttempt "a@b" "Notes 01/01/2026" "note",
                .log "Email sent successfully",
                .sendMessage 7 "Email sent successfully."]) :=
  ((send_action_behavior envFull "r1" 7 [("message:r1", "note", none)] 0 rfl).2
    "note" rfl).1

/-- Claim C10: when the body key is present, the flow deletes all keys
and replies "Email sent successfully." even when every per-recipient
delivery raised inside `send_email`; no chat message other than the
success reply is produced, so a delivery failure is never reported, and
the artifact is destroyed regardless. -/
theorem mail_failure_swallowed (env : Env) (rid b : String) (chat : Nat)
    (st : Store) (now : Nat) (hs : env.sendOk = true) (_hm : env.mailOk = false)
    (hb : otruthy (redisGet st now ("message:" ++ rid)) = some b) :
    handle_send_email env ("send_email:" ++ rid) chat st now =
      .ok (redisDelete (redisDelete (redisDelete st rid) ("subject:" ++ rid))
             ("message:" ++ rid),
           (env.toEmail.map (fun r =>
             send_email env (subjectOrDefault env st now rid) b r)).flatten
             ++ [.sendMessage chat "Email sent successfully."])
    ∧ (((env.toEmail.map (fun r =>
          send_email env (subjectOrDefault env st now rid) b r)).flatten
          ++ [Event.sendMessage chat "Email sent successfully."]).filter
          isChatMessage)
        = [.sendMessage chat "Email sent successfully."]
    ∧ redisGet (redisDelete (redisDelete (redisDelete st rid)
        ("subject:" ++ rid)) ("message:" ++ rid)) now ("message:" ++ rid)
        = none := by
  refine ⟨handle_send_found_eq env rid b chat st now hs hb, ?_,
    redisGet_delete_self _ _ _⟩
  rw [List.filter_append,
    filter_eq_nil_of_false (mail_events_not_chat env _ b env.toEmail)]
  rfl

/-- Witness for C10: with SMTP failing for the only recipient, the user
still gets only the success reply and the body key is deleted. -/
theorem mail_failure_swallowed_witness :
    handle_send_email envMailFail "send_email:r1" 7
      [("message:r1", "note", none)] 0 =
      .ok ([], [.mailAttempt "a@b" "Notes 01/01/2026" "note",
                .log "Error sending email",
                .sendMessage 7 "Email sent successfully."]) :=
  (mail_failure_swallowed envMailFail "r1" "note" 7
    [("message:r1", "note", none)] 0 rfl rfl rfl).1

/-- Claim C8: selecting edit-subject (resp. edit-body) binds the next
free-text message of the same chat to that field of the same report id;
the submission is written to the store, and the flow re-displays the
current subject and body (the freshly written value read back, the other
field unchanged) with the same three controls bound to the same id. -/
theorem edit_roundtrip (env : Env) (rid text : String) (chat : Nat)
    (st : Store) (now : Nat) (hr : env.redisOk = true) (hs : env.sendOk = true) :
    handle_edit_subject env ("edit_subject:" ++ rid) chat =
      .ok ([.sendMessage chat "Please enter the new subject:"],
           ⟨chat, .subjectF, rid⟩)
    ∧ handle_edit_message env ("edit_message:" ++ rid) chat =
      .ok ([.sendMessage chat "Please enter the new message:"],
           ⟨chat, .bodyF, rid⟩)
    ∧ save_subject env text rid chat st now =
        .ok (redisSet st ("subject:" ++ rid) text,
             [.sendMarkup chat
               (renderReport (orPlaceholder (some text) "(No Subject)")
                 (orPlaceholder (redisGet st now ("message:" ++ rid)) "(No Message)"))
               (controlButtons rid)])
    ∧ redisGet (redisSet st ("subject:" ++ rid) text) now ("subject:" ++ rid)
        = some text
    ∧ redisGet (redisSet st ("subject:" ++ rid) text) now ("message:" ++ rid)
        = redisGet st now ("message:" ++ rid)
    ∧ save_message env text rid chat st now =
        .ok (redisSet st ("message:" ++ rid) text,
             [.sendMarkup chat
               (renderReport
                 (orPlaceholder (redisGet st now ("subject:" ++ rid)) "(No Subject)")
                 (orPlaceholder (some text) "(No Message)"))
               (controlButtons rid)])
    ∧ redisGet (redisSet st ("message:" ++ rid) text) now ("message:" ++ rid)
        = some text := by
  refine ⟨?_, ?_, save_subject_ok_eq env text rid chat st now hr hs,
    redisGet_set_self _ _ _ _,
    redisGet_set_ne _ _ _ _ _ (Ne.symm (subject_key_ne_message_key _ _)),
    save_message_ok_eq env text rid chat st now hr hs,
    redisGet_set_self _ _ _ _⟩
  · simp [handle_edit_subject, splitOnce_edit_subject, bot_send, hs]
  · simp [handle_edit_message, splitOnce_edit_message, bot_send, hs]

/-- Witness for C8: submitting "Session Notes" as the new subject stores
it and re-displays it with the staged body and the three controls. -/
theorem edit_roundtrip_witness :
    save_subject envFull "Session Notes" "r1" 7
      [("message:r1", "note", none)] 0 =
      .ok ([("subject:r1", "Session Notes", none), ("message:r1", "note", none)],
           [.sendMarkup 7 (renderReport "Session Notes" "note")
             (controlButtons "r1")]) :=
  (edit_roundtrip envFull "r1" "Session Notes" 7
    [("message:r1", "note", none)] 0 rfl rfl).2.2.1

theorem processBody_no_audio (env : Env) (i o : String) (chat : Nat)
    (fs : List String) (st : Store)
    (h1 : env.hasAudioStream = false) (h2 : env.sendOk = true) :
    ∃ t, processBody env i o chat fs st =
      (st, fs, [Event.log t, .sendMessage chat "Failed to compress audio."],
       none) := by
  by_cases hc : i ∈ fs
  · exact ⟨"No valid audio stream found in " ++ i,
      by simp [processBody, compress_audio, hc, h1, otruthy, bot_send, h2]⟩
  · exact ⟨"Error compressing audio",
      by simp [processBody, compress_audio, hc, h1, otruthy, bot_send, h2]⟩

/-- Claim C6: on an input with no audio stream the pipeline replies
"Failed to compress audio." (the only chat message of the job) and makes
no transcription and no generation call. -/
theorem no_audio_stream_halts (env : Env) (input : String) (chat : Nat)
    (fs : List String) (st : Store)
    (h1 : env.hasAudioStream = false) (h2 : env.sendOk = true) :
    ((process_audio env input chat fs st).events.filter isChatMessage)
      = [.sendMessage chat "Failed to compress audio."]
    ∧ ((process_audio env input chat fs st).events.filter isAdapterCall)
      = [] := by
  obtain ⟨t, hB⟩ := processBody_no_audio env input
    ("downloads/" ++ ("compressed_" ++ basename input)) chat fs st h1 h2
  unfold process_audio
  rw [hB]
  constructor <;> rfl

/-- Witness for C6 at a concrete no-audio input. -/
theorem no_audio_stream_halts_witness :
    ((process_audio envNoAudio "downloads/a.ogg" 7 ["downloads/a.ogg"] []).events.filter
      isChatMessage) = [.sendMessage 7 "Failed to compress audio."] :=
  (no_audio_stream_halts envNoAudio "downloads/a.ogg" 7 ["downloads/a.ogg"] []
    rfl rfl).1

/-- Claim C3 counterexample: a job whose input lacks an audio stream and
whose failure reply raises a transport exception ends with zero chat
messages — the `except` clause only prints `Unexpected error`, so the
user gets silence instead of exactly one terminal message or an apology. -/
theorem silent_job_refutes_one_message :
    ((process_audio envCrash "downloads/a.ogg" 7 ["downloads/a.ogg"] []).events.filter
      isChatMessage) = []
    ∧ Event.log "Unexpected error"
        ∈ (process_audio envCrash "downloads/a.ogg" 7 ["downloads/a.ogg"] []).events :=
  ⟨rfl, by decide⟩

theorem otruthy_eq_some (o : Option String) (s : String)
    (h : otruthy o = some s) : o = some s := by
  cases o with
  | none => simp [otruthy] at h
  | some v =>
    by_cases he : v.data.isEmpty
    · simp [otruthy, he] at h
    · simp [otruthy, he] at h
      rw [h]

theorem log_not_terminal (e : Event) (h : ∃ t, e = Event.log t) :
    isTerminal e = false := by
  obtain ⟨t, rfl⟩ := h
  rfl

theorem processBody_terminal (env : Env) (i o : String) (chat : Nat)
    (fs : List String) (st : Store)
    (hs : env.sendOk = true) (hr : env.redisOk = true)
    (hcollide : ∀ r, env.report = some r → ∀ c ∈ sendChunks r.data,
      isStageFailureMsg (.sendMessage chat (String.mk c)) = false) :
    terminalCount (processBody env i o chat fs st).2.2.1 = 1
    ∧ (processBody env i o chat fs st).2.2.2 = none := by
  unfold processBody
  rcases hC : compress_audio env i o fs with ⟨c, fs1, ev1⟩
  have hev1 := compress_events_log env i o fs
  rw [hC] at hev1
  have hev1t : ev1.filter isTerminal = [] :=
    filter_eq_nil_of_false (fun e he => log_not_terminal e (hev1 e he))
  cases hc : otruthy c with
  | none =>
    simp [hc, bot_send, hs, terminalCount, List.filter_append, hev1t,
      isTerminal, isStageFailureMsg, isReadyPrompt]
  | some cp =>
    rcases hT : transcribe_audio env cp fs1 with ⟨t, ev2⟩
    have hev2 := transcribe_events_class env cp fs1
    rw [hT] at hev2
    have hev2t : ev2.filter isTerminal = [] :=
      filter_eq_nil_of_false (fun e he => (hev2 e he).2)
    cases ht : otruthy t with
    | none =>
      simp [hc, hT, ht, bot_send, hs, terminalCount, List.filter_append,
        hev1t, hev2t, isTerminal, isStageFailureMsg, isReadyPrompt]
    | some tt =>
      cases hg : otruthy env.report with
      | none =>
        simp [hc, hT, ht, generate_report, hg, bot_send, hs, terminalCount,
          List.filter_append, hev1t, hev2t, isTerminal, isStageFailureMsg,
          isReadyPrompt]
      | some r =>
        have hrep : env.report = some r := otruthy_eq_some env.report r hg
        have hchunkf :
            ((sendChunks r.data).map
              (fun c => Event.sendMessage chat (String.mk c))).filter
                isTerminal = [] := by
          refine filter_eq_nil_of_false ?_
          intro e he
          rw [List.mem_map] at he
          obtain ⟨cc, hcc, rfl⟩ := he
          have := hcollide r hrep cc hcc
          simp [isTerminal, isReadyPrompt, this]
        simp [hc, hT, ht, generate_report, hg, send_long_message, hs,
          prompt_ok_eq env chat r st hr hs, terminalCount,
          List.filter_append, hev1t, hev2t, hchunkf, isTerminal,
          isStageFailureMsg, isReadyPrompt]

/-- Claim C3 (amended): when the chat transport and the staging store are
available (and no generated chunk coincides with a failure string), every
job produces exactly one terminal chat message — one stage-specific
failure message, or the ready notification closing the success path. An
unexpected exception is only printed (`Unexpected error`), never
converted into an apology message, as the counterexample shows. -/
theorem one_terminal_message (env : Env) (input : String) (chat : Nat)
    (fs : List String) (st : Store)
    (hs : env.sendOk = true) (hr : env.redisOk = true)
    (hcollide : ∀ r, env.report = some r → ∀ c ∈ sendChunks r.data,
      isStageFailureMsg (.sendMessage chat (String.mk c)) = false) :
    terminalCount (process_audio env input chat fs st).events = 1 := by
  obtain ⟨h1, h2⟩ := processBody_terminal env input
    ("downloads/" ++ ("compressed_" ++ basename input)) chat fs st hs hr
    hcollide
  unfold process_audio processFinish
  rw [h2]
  exact h1

/-- Witness for C3 (amended) at a fully successful concrete job. -/
theorem one_terminal_message_witness :
    terminalCount
      (process_audio envFull "downloads/b.ogg" 7 ["downloads/b.ogg"] []).events
      = 1 := by
  refine one_terminal_message envFull "downloads/b.ogg" 7 ["downloads/b.ogg"]
    [] rfl rfl ?_
  intro r hr c hc
  have hrn : r = "note" := by
    have : (some "note" : Option String) = some r := hr
    simpa using this.symm
  subst hrn
  have hS : sendChunks "note".data = ["note".data] := rfl
  rw [hS] at hc
  simp at hc
  subst hc
  decide

theorem colonfree_key_getters (rid rid0 : String)
    (hcf : rid.data.contains ':' = false) (hne : rid0 ≠ rid) (st : Store)
    (now : Nat) :
    redisGet (redisDelete (redisDelete (redisDelete st rid)
        ("subject:" ++ rid)) ("message:" ++ rid)) now ("subject:" ++ rid0)
      = redisGet st now ("subject:" ++ rid0)
    ∧ redisGet (redisDelete (redisDelete (redisDelete st rid)
        ("subject:" ++ rid)) ("message:" ++ rid)) now ("message:" ++ rid0)
      = redisGet st now ("message:" ++ rid0) := by
  constructor
  · rw [redisGet_delete_ne _ _ _ _ (subject_key_ne_message_key rid0 rid),
      redisGet_delete_ne _ _ _ _ (fun hh => hne (subject_key_inj _ _ hh)),
      redisGet_delete_ne _ _ _ _ (colonfree_ne_subject_key rid rid0 hcf)]
  · rw [redisGet_delete_ne _ _ _ _ (fun hh => hne (message_key_inj _ _ hh)),
      redisGet_delete_ne _ _ _ _ (Ne.symm (subject_key_ne_message_key rid rid0)),
      redisGet_delete_ne _ _ _ _ (colonfree_ne_message_key rid rid0 hcf)]

theorem set_keys_getters (ridN rid0 : String) (hne : rid0 ≠ ridN)
    (st : Store) (report subjval : String) (now : Nat) :
    redisGet (redisSet (redisSet st ("message:" ++ ridN) report)
        ("subject:" ++ ridN) subjval) now ("subject:" ++ rid0)
      = redisGet st now ("subject:" ++ rid0)
    ∧ redisGet (redisSet (redisSet st ("message:" ++ ridN) report)
        ("subject:" ++ ridN) subjval) now ("message:" ++ rid0)
      = redisGet st now ("message:" ++ rid0) := by
  constructor
  · rw [redisGet_set_ne _ _ _ _ _ (fun hh => hne (subject_key_inj _ _ hh)),
      redisGet_set_ne _ _ _ _ _ (subject_key_ne_message_key rid0 ridN)]
  · rw [redisGet_set_ne _ _ _ _ _
      (Ne.symm (subject_key_ne_message_key ridN rid0)),
      redisGet_set_ne _ _ _ _ _ (fun hh => hne (message_key_inj _ _ hh))]

/-- Claim C7 (amended): along every run in which each ready notification
is delivered and no edit is submitted after a completed send, a Staged
Artifact is present in the store iff its ready notification has been sent
and no terminal send has occurred for that report id. (The unrestricted
claim is refuted: see the counterexample, where an edit after the send
re-creates a key.) -/
theorem review_invariant_good (s : Sys) (h : ReachableGood s) : InvC7 s := by
  induction h with
  | refl =>
    intro rid now
    simp [artifactPresent, redisGet, initSys]
  | @tail b c hab hstep ih =>
    cases hstep with
    | stage env chat report b st' evs hcf hn hsent hok =>
      have hst := prompt_ok_inv env chat report b.redis st' evs hok
      subst hst
      intro rid now
      dsimp only
      by_cases hrid : rid = env.reportId
      · subst hrid
        constructor
        · intro _
          exact ⟨by simp, hsent⟩
        · intro _
          left
          rw [redisGet_set_self]
          simp
      · obtain ⟨hg1, hg2⟩ := set_keys_getters env.reportId rid hrid b.redis
          report ("Notes " ++ env.today) now
        have hbase := ih rid now
        simp only [artifactPresent] at hbase ⊢
        rw [hg1, hg2]
        simp only [List.mem_append, List.mem_singleton, hrid, or_false]
        exact hbase
    | editSubject env chat now text rid b st' evs hcf hn hsent hok =>
      have hst := save_subject_ok_inv env text rid chat b.redis st' now evs hok
      subst hst
      intro rid0 now0
      dsimp only
      by_cases hrid : rid0 = rid
      · subst hrid
        constructor
        · intro _
          exact ⟨hn, hsent⟩
        · intro _
          left
          rw [redisGet_set_self]
          simp
      · have hbase := ih rid0 now0
        simp only [artifactPresent] at hbase ⊢
        rw [redisGet_set_ne _ _ _ _ _ (fun hh => hrid (subject_key_inj _ _ hh)),
          redisGet_set_ne _ _ _ _ _
            (Ne.symm (subject_key_ne_message_key rid rid0))]
        exact hbase
    | editBody env chat now text rid b st' evs hcf hn hsent hok =>
      have hst := save_message_ok_inv env text rid chat b.redis st' now evs hok
      subst hst
      intro rid0 now0
      dsimp only
      by_cases hrid : rid0 = rid
      · subst hrid
        constructor
        · intro _
          exact ⟨hn, hsent⟩
        · intro _
          right
          rw [redisGet_set_self]
          simp
      · have hbase := ih rid0 now0
        simp only [artifactPresent] at hbase ⊢
        rw [redisGet_set_ne _ _ _ _ _ (subject_key_ne_message_key rid0 rid),
          redisGet_set_ne _ _ _ _ _ (fun hh => hrid (message_key_inj _ _ hh))]
        exact hbase
    | sendFound env chat now rid b st' evs hcf hn hbody hok =>
      have hst := handle_send_found_inv env rid chat b.redis st' now evs hok
        hbody
      subst hst
      intro rid0 now0
      dsimp only
      by_cases hrid : rid0 = rid
      · subst hrid
        constructor
        · intro hart
          exfalso
          simp only [artifactPresent] at hart
          rcases hart with h1 | h2
          · rw [redisGet_delete_ne _ _ _ _
              (subject_key_ne_message_key rid0 rid0),
              redisGet_delete_self] at h1
            exact h1 rfl
          · rw [redisGet_delete_self] at h2
            exact h2 rfl
        · intro hmem
          exact absurd
            (List.mem_append_right _ (List.mem_singleton.mpr rfl)) hmem.2
      · obtain ⟨hg1, hg2⟩ := colonfree_key_getters rid rid0 hcf hrid b.redis
          now0
        have hbase := ih rid0 now0
        simp only [artifactPresent] at hbase ⊢
        rw [hg1, hg2]
        simp only [List.mem_append, List.mem_singleton, hrid, or_false]
        exact hbase
    | sendNotFound env chat now rid b st' evs hcf hn hbody hok =>
      have hst := handle_send_notfound_inv env rid chat b.redis st' now evs
        hok hbody
      subst hst
      exact ih

/-- Witness for C7 (amended) at the initial state. -/
theorem review_invariant_good_witness : InvC7 initSys :=
  review_invariant_good initSys Relation.ReflTransGen.refl

/-- Claim C7 counterexample: the invariant fails at a reachable state.
After stage, send, and an edit-body submission for the same id (the
buttons remain clickable after the send and the code has no guard), the
key `message:r1` is present again although the terminal send already
occurred. -/
theorem review_invariant_refuted : ¬ (∀ s : Sys, Reachable s → InvC7 s) := by
  intro h
  have s1 : Step initSys sysA :=
    Step.stage envFull 5 "note" initSys sysA.redis
      [.sendMarkup 5 promptText (controlButtons "r1")] (by decide)
      (List.not_mem_nil _) (List.not_mem_nil _) rfl
  have s2 : Step sysA sysB :=
    Step.sendFound envFull 5 0 "r1" sysA sysB.redis
      [.mailAttempt "a@b" "Notes 01/01/2026" "note",
       .log "Email sent successfully",
       .sendMessage 5 "Email sent successfully."] (by decide)
      (List.mem_singleton.mpr rfl) (by decide) rfl
  have s3 : Step sysB sysC :=
    Step.editBody envFull 5 0 "x" "r1" sysB sysC.redis
      [.sendMarkup 5 (renderReport "(No Subject)" "x") (controlButtons "r1")]
      (by decide) (List.mem_singleton.mpr rfl) rfl
  have hreach : Reachable sysC :=
    Relation.ReflTransGen.tail
      (Relation.ReflTransGen.tail
        (Relation.ReflTransGen.tail Relation.ReflTransGen.refl s1) s2) s3
  have hinv := (h sysC hreach "r1" 0).mp (Or.inr (by decide))
  exact absurd (List.mem_singleton.mpr rfl) hinv.2

end Bot
